import Mathlib

/-!
Verification of the request/response lifecycle object of `bfx-api-helper`
(`src/ApiHelper.js`).  The JavaScript class `ApiHelper` is shallowly embedded:
its mutable per-request state becomes the structure `Ctx`, each mutating method
becomes a function `Ctx → … → Ctx` (paired with an `Option String` for a thrown
or rejected error message), and the pure request-composition helpers become
plain functions.  The HMAC-SHA384 signer is an external collaborator of the
class (`CryptoJS.HmacSHA384(message, key).toString(hex)`), so every definition
that signs takes the hex signer as an explicit function argument
`hmac : String → String → String` (message, then key).

Request bodies and WebSocket frames are JavaScript objects whose values, in
this repository, are primitives (strings, integral numbers, booleans, null) or
arrays of strings (the `filter` option); they are embedded as insertion-ordered
association lists over `JsPrim`, with JavaScript's property-assignment and
object-spread semantics (`setField`, `hdrSet`, `hdrMerge`).
-/

/-- A primitive JavaScript value as it occurs in this repository's request
bodies, headers and WebSocket frames. -/
inductive JsPrim where
  | null
  | bool (b : Bool)
  | num (n : Int)
  | str (s : String)
  | strArr (xs : List String)
  deriving Repr, DecidableEq

/-- A JavaScript object: insertion-ordered key/value pairs. -/
abbrev JsObj := List (String × JsPrim)

/-- JavaScript property assignment `o[k] = v`: overwrite in place when the key
exists, otherwise append (insertion order preserved). -/
def setField (o : JsObj) (k : String) (v : JsPrim) : JsObj :=
  if o.any (fun kv => kv.1 == k) then
    o.map (fun kv => if kv.1 == k then (k, v) else kv)
  else o ++ [(k, v)]

/-- Property assignment on a string-valued object (HTTP headers). -/
def hdrSet (o : List (String × String)) (k v : String) : List (String × String) :=
  if o.any (fun kv => kv.1 == k) then
    o.map (fun kv => if kv.1 == k then (k, v) else kv)
  else o ++ [(k, v)]

/-- JavaScript object spread `{ ...base, ...extra }` on string-valued objects:
keys of `extra` override `base` in place, new keys are appended. -/
def hdrMerge (base extra : List (String × String)) : List (String × String) :=
  extra.foldl (fun acc kv => hdrSet acc kv.1 kv.2) base

/-- The decimal digit characters, for `Number.prototype.toString()` (base 10)
and `JSON.stringify` of integral numbers. -/
def digitCh : Nat → Char
  | 0 => '0'
  | 1 => '1'
  | 2 => '2'
  | 3 => '3'
  | 4 => '4'
  | 5 => '5'
  | 6 => '6'
  | 7 => '7'
  | 8 => '8'
  | 9 => '9'
  | _ => '*'

/-- Fuel-driven decimal digit emitter (most significant digit first); the fuel
is always at least the digit count, mirroring the structure of core's
`Nat.toDigits` so that the recursion is structural. -/
def decDigitsCore : Nat → Nat → List Char → List Char
  | 0, _, acc => acc
  | fuel + 1, n, acc =>
    if n < 10 then digitCh (n % 10) :: acc
    else decDigitsCore fuel (n / 10) (digitCh (n % 10) :: acc)

/-- The decimal string of a natural number: the embedding of JavaScript's
`Number.prototype.toString()` for the non-negative integers this client
produces (`Date.now() * 1000` nonces). -/
def decRepr (n : Nat) : String :=
  String.mk (decDigitsCore (n + 1) n [])

/-- Decimal string of an integer (`JSON.stringify` of an integral number). -/
def intRepr (n : Int) : String :=
  if n < 0 then "-" ++ decRepr n.natAbs else decRepr n.natAbs

/-- JSON string escaping as performed by `JSON.stringify` for the characters
that occur in this repository's payloads. -/
def jsonEscapeChar (c : Char) : String :=
  if c = '"' then "\\\""
  else if c = '\\' then "\\\\"
  else if c = '\n' then "\\n"
  else if c = '\r' then "\\r"
  else if c = '\t' then "\\t"
  else String.mk [c]

def jsonEscape (s : String) : String :=
  s.data.foldl (fun acc c => acc ++ jsonEscapeChar c) ""

def jsonOfPrim : JsPrim → String
  | .null => "null"
  | .bool true => "true"
  | .bool false => "false"
  | .num n => intRepr n
  | .str s => "\"" ++ jsonEscape s ++ "\""
  | .strArr xs =>
    "[" ++ String.intercalate "," (xs.map (fun s => "\"" ++ jsonEscape s ++ "\"")) ++ "]"

/-- `JSON.stringify` of a (flat) JavaScript object, in insertion order. -/
def jsonStringify (o : JsObj) : String :=
  "\x7b" ++
    String.intercalate ","
      (o.map (fun kv => "\"" ++ jsonEscape kv.1 ++ "\":" ++ jsonOfPrim kv.2)) ++
  "\x7d"

/-- UTF-8 encoding of one character (`Buffer.from(string)` byte semantics). -/
def charUtf8 (c : Char) : List Nat :=
  let n := c.toNat
  if n < 128 then [n]
  else if n < 2048 then [192 + n / 64, 128 + n % 64]
  else if n < 65536 then [224 + n / 4096, 128 + n / 64 % 64, 128 + n % 64]
  else [240 + n / 262144, 128 + n / 4096 % 64, 128 + n / 64 % 64, 128 + n % 64]

/-- UTF-8 bytes of a string. -/
def utf8Bytes (s : String) : List Nat :=
  s.data.foldr (fun c acc => charUtf8 c ++ acc) []

/-- The standard base64 alphabet. -/
def b64Char (n : Nat) : Char :=
  "ABCDEFGHIJKLMNOPQRSTUVWXYZabcdefghijklmnopqrstuvwxyz0123456789+/".data.getD n '='

/-- Base64 encoding of a byte sequence with padding
(`Buffer.prototype.toString("base64")`). -/
def base64Encode : List Nat → String
  | a :: b :: c :: rest =>
    String.mk [b64Char (a / 4), b64Char (a % 4 * 16 + b / 16),
               b64Char (b % 16 * 4 + c / 64), b64Char (c % 64)] ++ base64Encode rest
  | [a, b] =>
    String.mk [b64Char (a / 4), b64Char (a % 4 * 16 + b / 16), b64Char (b % 16 * 4), '=']
  | [a] => String.mk [b64Char (a / 4), b64Char (a % 4 * 16), '=', '=']
  | [] => ""

/-- JavaScript `String.prototype.split(sep)` for a one-character separator:
splits at every occurrence. -/
def jsSplitAux (sep : Char) : List Char → List Char → List String
  | [], acc => [String.mk acc.reverse]
  | c :: cs, acc =>
    if c == sep then String.mk acc.reverse :: jsSplitAux sep cs []
    else jsSplitAux sep cs (c :: acc)

def jsSplit (s : String) (sep : Char) : List String :=
  jsSplitAux sep s.data []

/-- JavaScript `String.prototype.includes` for a one-character needle. -/
def jsIncludes (s : String) (c : Char) : Bool :=
  s.data.any (fun x => x == c)

/-- JavaScript `String.prototype.startsWith`, over the character sequence
(kernel-reducible, unlike core's substring-based `String.startsWith`). -/
def jsStartsWith (s pre : String) : Bool :=
  pre.data.isPrefixOf s.data

/-- Truthiness of an optional string: JavaScript treats `null`, `undefined`
and the empty string as falsy. -/
def optTruthy : Option String → Bool
  | some s => s != ""
  | none => false

/-- JavaScript coercion of a possibly-`null` string to a string under `+`
concatenation: `null` prints as `"null"`. -/
def jsStringOfNullable : Option String → String
  | some s => s
  | none => "null"

/-- The merged per-request options object of `ApiHelper` (hard-coded defaults,
overridable per call).  `version = 0` means "infer from the path". -/
structure Options where
  key : Option String := none
  secret : Option String := none
  baseRestUrl : String := "https://api.bitfinex.com/"
  baseWsUrl : String := "wss://api.bitfinex.com/ws/2"
  verboseOutput : Bool := false
  dms : Bool := false
  token : Option String := none
  filter : Option (List String) := none
  performance : Bool := false
  version : Nat := 0
  optionalHeaders : List (String × String) := []
  deriving Repr, DecidableEq

/-- The hard-coded option defaults set by the `ApiHelper` constructor. -/
def defaultOptions : Options := {}

/-- The mutable per-request state of an `ApiHelper` instance.  Fields that
JavaScript leaves `undefined` until first assignment are `Option`-typed with
`none` for "never assigned". -/
structure Ctx where
  key : Option String := none
  secret : Option String := none
  token : Option String := none
  path : String := ""
  pathArgs : Option String := none
  version : Option Nat := none
  body : JsObj := []
  nonce : String := ""
  baseUrl : Option String := none
  isVerbose : Bool := false
  options : Options := defaultOptions
  deriving Repr, DecidableEq

/-- A freshly constructed helper with no credentials file and no defaults
file: only the hard-coded option defaults are set. -/
def freshCtx : Ctx := {}

/-- `setCredentials(key, secret, token)`: a truthy token wins; otherwise a
truthy key/secret pair is stored; otherwise the previous credentials stay. -/
def setCredentials (ctx : Ctx) (key secret token : Option String) : Ctx :=
  if optTruthy token then { ctx with token := token }
  else if optTruthy key && optTruthy secret then { ctx with key := key, secret := secret }
  else ctx

/-- `setNonce(nonce)`: a truthy caller override wins, otherwise the nonce is
`(Date.now() * 1000).toString()`.  The current clock reading in milliseconds
is an explicit input of the embedding. -/
def setNonce (ctx : Ctx) (override : Option Nat) (nowMs : Nat) : Ctx :=
  { ctx with
    nonce :=
      match override with
      | some n => if n != 0 then decRepr n else decRepr (nowMs * 1000)
      | none => decRepr (nowMs * 1000) }

/-- The error string thrown by `setPath` when no version can be determined. -/
def unresolvedVersionMsg : String :=
  "Unable to determine endpoint version. Paths are expected to start with v1, v2, v3.. Aborting."

/-- The rejection string of `setContext` for an empty path. -/
def invalidPathMsg : String :=
  "Path is not set, unable to use the API without specifying an API path."

/-- The rejection string of `openSocket` when credentials are missing. -/
def missingCredentialsMsg : String :=
  "Unable to create WebSocket connection; credentials were not supplied."

/-- Leading-slash normalization at the top of `setPath`
(`path.substring(1)` when the path starts with `"/"`). -/
def normPath (p : String) : String :=
  if jsStartsWith p "/" then String.mk (p.data.drop 1) else p

/-- The tail of `setPath`: store the path, and split off the query suffix on
`"?"` (JavaScript `split`, which splits at every occurrence; components 0 and
1 are kept). -/
def setPathRest (ctx : Ctx) (path : String) : Ctx :=
  if jsIncludes path '?' then
    { ctx with
      path := (jsSplit path '?').headD "",
      pathArgs := some (((jsSplit path '?').drop 1).headD "") }
  else
    { ctx with path := path, pathArgs := none }

/-- `setPath(path)`: normalize, infer the version from the path's leading
segment unless the `version` option forces one (in which case `this.version`
is left untouched), and split off the query suffix.  The second component is
the thrown error, if any; on a throw `this` is unchanged (the throw precedes
every assignment to `this`). -/
def setPathM (ctx : Ctx) (path0 : String) : Ctx × Option String :=
  let path := normPath path0
  if ctx.options.version == 1 || ctx.options.version == 2 then
    (setPathRest ctx path, none)
  else if jsStartsWith path "v1/" then
    (setPathRest { ctx with version := some 1 } path, none)
  else if jsStartsWith path "v2/" then
    (setPathRest { ctx with version := some 2 } path, none)
  else (ctx, some unresolvedVersionMsg)

/-- `setContext(path, body, options)`: reject an empty path, merge the
options (the caller's object is spread over the instance object; passing a
total options record replaces every field), then set verbosity, base URL,
path, body and credentials in source order.  A throw inside `setPath` rejects
the promise, keeping the mutations made before the throw. -/
def setContext (ctx : Ctx) (path : String) (body : Option JsObj) (opts : Options) :
    Ctx × Option String :=
  if path == "" then (ctx, some invalidPathMsg)
  else
    let b := body.getD []
    let ctx := { ctx with options := opts }
    let ctx := { ctx with isVerbose := opts.verboseOutput }
    let ctx := { ctx with baseUrl := some opts.baseRestUrl }
    match setPathM ctx path with
    | (ctx, some e) => (ctx, some e)
    | (ctx, none) =>
      let ctx := { ctx with body := b }
      (setCredentials ctx opts.key opts.secret opts.token, none)

/-- `getFullPath()`: the source line is
`return this.path + this.pathArgs ? this.pathArgs : ""` — concatenation binds
tighter than the conditional, so the condition is the truthiness of
`this.path + this.pathArgs` (with `null` printing as `"null"`), and the value
returned on a truthy condition is `this.pathArgs` itself. -/
def getFullPath (ctx : Ctx) : Option String :=
  if (ctx.path ++ jsStringOfNullable ctx.pathArgs) != "" then ctx.pathArgs
  else some ""

/-- The second argument `actOnResponse` passes to the caller's handler. -/
structure HandlerArgs where
  requestBody : JsObj
  requestPath : Option String
  deriving Repr, DecidableEq

/-- The handler arguments built by `actOnResponse`. -/
def actOnResponseArgs (ctx : Ctx) : HandlerArgs :=
  { requestBody := ctx.body, requestPath := getFullPath ctx }

/-- `getRootUrl()`: the configured base URL if truthy, else the default. -/
def getRootUrl (ctx : Ctx) : String :=
  if optTruthy ctx.baseUrl then ctx.baseUrl.getD "" else "https://api.bitfinex.com/"

/-- `mergeOptionalHeaders(headers)`: spread the caller-configured optional
headers first, then the protocol-generated headers (which therefore win on
key collision). -/
def mergeOptionalHeaders (ctx : Ctx) (headers : List (String × String)) :
    List (String × String) :=
  hdrMerge ctx.options.optionalHeaders headers

/-- `getSignatureV1(payload)`: hex HMAC-SHA384 of the payload, keyed by the
secret (the signer is an explicit collaborator argument). -/
def getSignatureV1 (hmac : String → String → String) (ctx : Ctx) (payload : String) : String :=
  hmac payload (ctx.secret.getD "")

/-- `getHeaderV1()`: `bfx-token` if a token is stored, otherwise the
`X-BFX-APIKEY` / `X-BFX-PAYLOAD` / `X-BFX-SIGNATURE` triple, where the
payload is base64 of the UTF-8 bytes of `JSON.stringify(this.body)`. -/
def getHeaderV1 (hmac : String → String → String) (ctx : Ctx) : List (String × String) :=
  if optTruthy ctx.token then
    mergeOptionalHeaders ctx [("bfx-token", ctx.token.getD "")]
  else
    let payload := base64Encode (utf8Bytes (jsonStringify ctx.body))
    mergeOptionalHeaders ctx
      [("X-BFX-APIKEY", ctx.key.getD ""),
       ("X-BFX-PAYLOAD", payload),
       ("X-BFX-SIGNATURE", getSignatureV1 hmac ctx payload)]

/-- `getSignatureV2()`: hex HMAC-SHA384 of
`"/api/" + this.path + this.nonce + JSON.stringify(this.body)`, keyed by the
secret. -/
def getSignatureV2 (hmac : String → String → String) (ctx : Ctx) : String :=
  hmac ("/api/" ++ ctx.path ++ ctx.nonce ++ jsonStringify ctx.body) (ctx.secret.getD "")

/-- `getHeaderV2()`: `bfx-token` if a token is stored, otherwise the
`bfx-nonce` / `bfx-apikey` / `bfx-signature` triple. -/
def getHeaderV2 (hmac : String → String → String) (ctx : Ctx) : List (String × String) :=
  if optTruthy ctx.token then
    mergeOptionalHeaders ctx [("bfx-token", ctx.token.getD "")]
  else
    mergeOptionalHeaders ctx
      [("bfx-nonce", ctx.nonce),
       ("bfx-apikey", ctx.key.getD ""),
       ("bfx-signature", getSignatureV2 hmac ctx)]

/-- The request object handed to the HTTP transport: URL, headers, a body that
is either pre-serialized text or a structured object, and the `json` flag. -/
inductive ReqBody where
  | text (s : String)
  | jsonObj (o : JsObj)
  deriving Repr, DecidableEq

structure RequestPayload where
  url : String
  headers : List (String × String)
  body : ReqBody
  json : Bool
  deriving Repr, DecidableEq

/-- `getRequestPayloadV1(authenticatedRequest)`: injects `request` (the
slash-prefixed path, with the query suffix appended when truthy) into the
body, then — for an authenticated request — injects the nonce and signs.
Returns the mutated state together with the transport payload. -/
def getRequestPayloadV1 (hmac : String → String → String) (ctx : Ctx)
    (authenticatedRequest : Bool) : Ctx × RequestPayload :=
  let req := if jsStartsWith ctx.path "/" then ctx.path else "/" ++ ctx.path
  let ctx := { ctx with body := setField ctx.body "request" (.str req) }
  let url := getRootUrl ctx ++ req
  let withArgs := optTruthy ctx.pathArgs
  let req2 := if withArgs then req ++ "?" ++ ctx.pathArgs.getD "" else req
  let ctx :=
    if withArgs then { ctx with body := setField ctx.body "request" (.str req2) }
    else ctx
  let url := if withArgs then url ++ "?" ++ ctx.pathArgs.getD "" else url
  if !authenticatedRequest then
    (ctx,
     { url := url, body := .text (jsonStringify ctx.body),
       headers := mergeOptionalHeaders ctx [], json := false })
  else
    let ctx := { ctx with body := setField ctx.body "nonce" (.str ctx.nonce) }
    let headers := getHeaderV1 hmac ctx
    if optTruthy ctx.token then
      (ctx, { url := url, headers := headers, body := .jsonObj ctx.body, json := true })
    else
      (ctx, { url := url, headers := headers, body := .text (jsonStringify ctx.body),
              json := false })

/-- `getRequestPayloadV2(authenticatedRequest)`: structured JSON body, query
suffix appended to the URL when truthy, headers only when authenticated. -/
def getRequestPayloadV2 (hmac : String → String → String) (ctx : Ctx)
    (authenticatedRequest : Bool) : Ctx × RequestPayload :=
  let p := if jsStartsWith ctx.path "/" then ctx.path else "/" ++ ctx.path
  let url := getRootUrl ctx ++ p
  let url := if optTruthy ctx.pathArgs then url ++ "?" ++ ctx.pathArgs.getD "" else url
  if !authenticatedRequest then
    (ctx, { url := url, body := .jsonObj ctx.body,
            headers := mergeOptionalHeaders ctx [], json := true })
  else
    (ctx, { url := url, headers := getHeaderV2 hmac ctx, body := .jsonObj ctx.body,
            json := true })

/-- The pure part of `sendRequest(isPost, authenticatedRequest, callback)`:
downgrade to unauthenticated (with a warning) when authentication was asked
for but neither a token nor a key/secret pair is stored, then build the
version-specific payload — the dispatch tests `this.version === 1` and uses
the v2 builder in every other case. -/
def sendRequestBuild (hmac : String → String → String) (ctx : Ctx)
    (authenticatedRequest : Bool) : Ctx × RequestPayload :=
  let auth :=
    if authenticatedRequest && !optTruthy ctx.token &&
        !(optTruthy ctx.key && optTruthy ctx.secret) then false
    else authenticatedRequest
  if ctx.version == some 1 then getRequestPayloadV1 hmac ctx auth
  else getRequestPayloadV2 hmac ctx auth

/-- `sendPostRequest` / `sendGetRequest`: regenerate the nonce, then build the
transport payload (the two differ only in the HTTP verb handed to the
transport). -/
def transmitBuild (hmac : String → String → String) (ctx : Ctx)
    (authenticatedRequest : Bool) (nonceOverride : Option Nat) (nowMs : Nat) :
    Ctx × RequestPayload :=
  sendRequestBuild hmac (setNonce ctx nonceOverride nowMs) authenticatedRequest

/-- `getWebSocketSignature()`: the authentication frame sent on socket open.
A truthy `options.token` yields `{event, token}`; otherwise the key/nonce/
signature quadruple is added; `dms: 4` is added when the `dms` option is
truthy and `filter` when the option is an array. -/
def getWebSocketSignature (hmac : String → String → String) (ctx : Ctx) : JsObj :=
  let payload : JsObj := [("event", .str "auth")]
  let payload :=
    if optTruthy ctx.options.token then
      setField payload "token" (.str (ctx.options.token.getD ""))
    else
      let authPayload := "AUTH" ++ ctx.nonce
      let authSig := hmac ("AUTH" ++ ctx.nonce) (ctx.secret.getD "")
      setField (setField (setField (setField payload
        "apiKey" (.str (ctx.key.getD "")))
        "authSig" (.str authSig))
        "authNonce" (.str ctx.nonce))
        "authPayload" (.str authPayload)
  let payload := if ctx.options.dms then setField payload "dms" (.num 4) else payload
  match ctx.options.filter with
  | some fs => setField payload "filter" (.strArr fs)
  | none => payload

/-- The synchronous prefix of `openSocket(options, delayResponse, nonce)`:
merge the options, call `setCredentials(options.key, options.secret)` — note:
without the token — and `setNonce(nonce)`, then reject when `this.key` or
`this.secret` is falsy; on success the transport connection would be opened
next.  The returned `Option String` is the rejection string, `none` meaning a
socket is opened. -/
def openSocketInit (ctx : Ctx) (opts : Options) (nonceOverride : Option Nat)
    (nowMs : Nat) : Ctx × Option String :=
  let ctx := { ctx with options := opts }
  let ctx := setCredentials ctx opts.key opts.secret none
  let ctx := setNonce ctx nonceOverride nowMs
  if !(optTruthy ctx.key && optTruthy ctx.secret) then (ctx, some missingCredentialsMsg)
  else (ctx, none)

/-- An inbound WebSocket frame as far as the auth handler inspects it. -/
structure WsFrame where
  event : String
  status : Option String
  msg : Option String
  deriving Repr, DecidableEq

/-- The target of the retry timer scheduled on a rate-limit auth failure. -/
inductive RetryCallTarget where
  /-- The timer callback at src/ApiHelper.js:143 is
  `() => openSocket(callback, shouldDelayCallback)`.  None of `openSocket`,
  `callback` or `shouldDelayCallback` is a bound identifier at that call site
  (the method is only reachable as `this.openSocket`, and the enclosing
  scopes bind neither `callback` nor `shouldDelayCallback`), so when the
  timer fires the callback throws a `ReferenceError` instead of re-invoking
  `openSocket` with the original arguments. -/
  | unboundIdentifiers
  deriving Repr, DecidableEq

/-- What the `onmessage` handler installed by `openSocket` does with the first
frame (after which it deregisters itself). -/
inductive AuthAction where
  | ignore
  | resolveAfter (delayMs : Nat)
  | scheduleTimer (delayMs : Nat) (target : RetryCallTarget)
  | rejectAuthFailed
  deriving Repr, DecidableEq

/-- The dispatch of `openSocket`'s `onmessage` handler on a parsed frame. -/
def handleAuthFrame (frame : WsFrame) (delayResponse : Nat) : AuthAction :=
  if frame.event == "auth" then
    if frame.status == some "OK" then .resolveAfter delayResponse
    else if frame.status == some "FAILED" && frame.msg == some "rate: limit" then
      .scheduleTimer 5000 .unboundIdentifiers
    else .rejectAuthFailed
  else .ignore

/-- A concrete stand-in for the external HMAC-SHA384 signer, used only to
instantiate closed witness and counterexample statements (every universal
theorem below quantifies over the signer). -/
def hmacFix (msg key : String) : String :=
  "hmac-sha384(" ++ msg ++ "," ++ key ++ ")"

/-! ### Supporting lemmas -/

/-- Value of a decimal digit string (left fold). -/
def decValC (cs : List Char) : Nat :=
  cs.foldl (fun a c => a * 10 + (c.toNat - 48)) 0

theorem digitCh_val (d : Nat) (h : d < 10) : (digitCh d).toNat - 48 = d := by
  interval_cases d <;> decide

theorem decDigitsCore_succ (fuel n : Nat) (acc : List Char) :
    decDigitsCore (fuel + 1) n acc =
      if n < 10 then digitCh (n % 10) :: acc
      else decDigitsCore fuel (n / 10) (digitCh (n % 10) :: acc) := rfl

theorem decDigitsCore_acc : ∀ fuel n acc,
    decDigitsCore fuel n acc = decDigitsCore fuel n [] ++ acc := by
  intro fuel
  induction fuel with
  | zero => intro n acc; simp [decDigitsCore]
  | succ f ih =>
    intro n acc
    by_cases h : n < 10
    · rw [decDigitsCore_succ, decDigitsCore_succ, if_pos h, if_pos h]
      rfl
    · rw [decDigitsCore_succ, decDigitsCore_succ, if_neg h, if_neg h,
          ih (n / 10) (digitCh (n % 10) :: acc), ih (n / 10) [digitCh (n % 10)]]
      simp

theorem decValC_roundtrip : ∀ fuel n, n ≤ fuel →
    decValC (decDigitsCore (fuel + 1) n []) = n := by
  intro fuel
  induction fuel with
  | zero =>
    intro n hn
    have hn0 : n = 0 := Nat.le_zero.mp hn
    subst hn0
    decide
  | succ f ih =>
    intro n hn
    by_cases h : n < 10
    · have hm : n % 10 = n := Nat.mod_eq_of_lt h
      rw [decDigitsCore_succ, if_pos h, hm]
      simp only [decValC, List.foldl]
      simpa using digitCh_val n h
    · have h10 : 10 ≤ n := Nat.le_of_not_lt h
      have hle : n / 10 ≤ f := by
        have hlt : n / 10 < n := Nat.div_lt_self (by omega) (by omega)
        omega
      rw [decDigitsCore_succ, if_neg h,
          decDigitsCore_acc (f + 1) (n / 10) [digitCh (n % 10)]]
      have ihv := ih (n / 10) hle
      simp only [decValC] at ihv ⊢
      rw [List.foldl_append, ihv]
      simp only [List.foldl]
      rw [digitCh_val (n % 10) (Nat.mod_lt n (by omega))]
      omega

theorem decRepr_injective {m n : Nat} (h : decRepr m = decRepr n) : m = n := by
  have hd : decDigitsCore (m + 1) m [] = decDigitsCore (n + 1) n [] :=
    congrArg String.data h
  have hm := decValC_roundtrip m m (Nat.le_refl m)
  have hn := decValC_roundtrip n n (Nat.le_refl n)
  rw [hd] at hm
  omega

theorem string_data_append (s t : String) : (s ++ t).data = s.data ++ t.data := by
  cases s; cases t; rfl

theorem string_eq_empty_iff (s : String) : s = "" ↔ s.data = [] := by
  cases s with
  | mk l =>
    constructor
    · intro h; rw [h]
    · intro h; simp only at h; rw [show ("" : String) = String.mk [] from rfl, h]

theorem jsSplitAux_headD (sep : Char) : ∀ (l acc : List Char),
    (jsSplitAux sep l acc).headD "" =
      String.mk (acc.reverse ++ l.takeWhile (fun c => c != sep)) := by
  intro l
  induction l with
  | nil => intro acc; simp [jsSplitAux]
  | cons c cs ih =>
    intro acc
    cases hc : (c == sep) with
    | true =>
      have hcs : (c != sep) = false := by simp [bne, hc]
      simp [jsSplitAux, hc, List.takeWhile, hcs]
    | false =>
      have hcs : (c != sep) = true := by simp [bne, hc]
      simp only [jsSplitAux, hc, Bool.false_eq_true, if_false, List.takeWhile, hcs]
      rw [ih (c :: acc)]
      simp

theorem jsSplitAux_drop_one (sep : Char) : ∀ (l acc : List Char), sep ∈ l →
    (jsSplitAux sep l acc).drop 1 =
      jsSplitAux sep ((l.dropWhile (fun c => c != sep)).drop 1) [] := by
  intro l
  induction l with
  | nil => intro acc h; cases h
  | cons c cs ih =>
    intro acc hmem
    cases hc : (c == sep) with
    | true =>
      have hcs : (c != sep) = false := by simp [bne, hc]
      simp [jsSplitAux, hc, List.dropWhile, hcs]
    | false =>
      have hcs : (c != sep) = true := by simp [bne, hc]
      have hne : c ≠ sep := by
        intro he
        rw [he] at hc
        simp at hc
      have hmem' : sep ∈ cs := by
        rcases List.mem_cons.mp hmem with h | h
        · exact absurd h.symm hne
        · exact h
      simp only [jsSplitAux, hc, Bool.false_eq_true, if_false, List.dropWhile, hcs]
      exact ih (c :: acc) hmem'

theorem jsIncludes_iff_mem (s : String) (c : Char) :
    jsIncludes s c = true ↔ c ∈ s.data := by
  simp only [jsIncludes, List.any_eq_true, beq_iff_eq]
  constructor
  · rintro ⟨x, hx, rfl⟩; exact hx
  · intro h; exact ⟨c, h, rfl⟩

/-- Characterization of `setPathRest` when the path contains a `?`: the stored
path is the prefix before the first `?` and the stored query suffix is the
segment strictly between the first `?` and the next one (or the end). -/
theorem setPathRest_split (ctx : Ctx) (q : String) (h : jsIncludes q '?' = true) :
    (setPathRest ctx q).path = String.mk (q.data.takeWhile (fun c => c != '?')) ∧
    (setPathRest ctx q).pathArgs =
      some (String.mk (((q.data.dropWhile (fun c => c != '?')).drop 1).takeWhile
        (fun c => c != '?'))) := by
  have hmem : '?' ∈ q.data := (jsIncludes_iff_mem q '?').mp h
  constructor
  · simp only [setPathRest, h, if_true, jsSplit]
    rw [jsSplitAux_headD '?' q.data []]
    simp
  · simp only [setPathRest, h, if_true, jsSplit]
    rw [jsSplitAux_drop_one '?' q.data [] hmem,
        jsSplitAux_headD '?' ((q.data.dropWhile (fun c => c != '?')).drop 1) []]
    simp

theorem sendRequestBuild_nonce (hmac : String → String → String) (ctx : Ctx)
    (auth : Bool) : (sendRequestBuild hmac ctx auth).1.nonce = ctx.nonce := by
  simp only [sendRequestBuild, getRequestPayloadV1, getRequestPayloadV2]
  repeat' split
  all_goals rfl

theorem transmitBuild_nonce (hmac : String → String → String) (ctx : Ctx)
    (auth : Bool) (t : Nat) :
    (transmitBuild hmac ctx auth none t).1.nonce = decRepr (t * 1000) := by
  simp only [transmitBuild, sendRequestBuild_nonce, setNonce]

/-! ### Claims -/

/-- C10 (amended): the `requestPath` value passed to the `actOnResponse`
handler equals the stored `pathArgs` value itself — the query suffix when one
was parsed and JavaScript `null` (not the empty string) when none was — so
the endpoint path never appears in it: in
`this.path + this.pathArgs ? this.pathArgs : ""` the concatenation binds
tighter than the conditional, the condition is therefore truthy whenever the
concatenated string is non-empty, and the value returned then is
`this.pathArgs` itself. -/
theorem claim10_request_path_eq_pathargs (ctx : Ctx) :
    (actOnResponseArgs ctx).requestPath = ctx.pathArgs := by
  simp only [actOnResponseArgs, getFullPath]
  cases hpa : ctx.pathArgs with
  | none =>
    have hne : (ctx.path ++ jsStringOfNullable none) ≠ "" := by
      intro h
      have hdata := congrArg String.data h
      rw [string_data_append] at hdata
      simp [jsStringOfNullable] at hdata
    simp [bne_iff_ne, hne]
  | some a =>
    by_cases he : (ctx.path ++ jsStringOfNullable (some a)) = ""
    · have hdata := congrArg String.data he
      rw [string_data_append] at hdata
      have ha : a.data = [] := (List.append_eq_nil.mp hdata).2
      have ha' : a = "" := (string_eq_empty_iff a).mpr ha
      simp [he, ha']
    · simp [bne_iff_ne, he]

/-- C10 counterexample: for a configured context whose path has no query
suffix (`pathArgs` falsy), `getFullPath` — and hence the `requestPath` handed
to the handler — is `null`, not the empty string the claim asserts. -/
theorem claim10_cex_null_pathargs :
    (actOnResponseArgs (setContext freshCtx "v2/conf" none defaultOptions).1).requestPath
        = none ∧
    (actOnResponseArgs (setContext freshCtx "v2/conf" none defaultOptions).1).requestPath
        ≠ some "" := by
  decide

/-- C7 counterexample: for the path `"v1/a?b?c"` (which contains a `?` after
the first one), the stored `pathArgs` is `"b"` — JavaScript `split("?")[1]` —
and not the entire remainder `"b?c"` the claim asserts. -/
theorem claim7_cex_double_question :
    (setPathM freshCtx "v1/a?b?c").1.path = "v1/a" ∧
    (setPathM freshCtx "v1/a?b?c").1.pathArgs = some "b" ∧
    (setPathM freshCtx "v1/a?b?c").1.pathArgs ≠ some "b?c" := by
  decide

/-- C7 (amended): for every path whose normalized form contains a `?` and
which `setPath` accepts, the stored path is the substring before the first
`?` and the stored `pathArgs` is the substring strictly between the first `?`
and the next `?` (the entire remainder only when no second `?` occurs) —
`split("?")` splits at every occurrence and only component 1 is kept. -/
theorem claim7_split_segments (ctx : Ctx) (p : String)
    (hok : (setPathM ctx p).2 = none)
    (hq : jsIncludes (normPath p) '?' = true) :
    (setPathM ctx p).1.path =
      String.mk ((normPath p).data.takeWhile (fun c => c != '?')) ∧
    (setPathM ctx p).1.pathArgs =
      some (String.mk ((((normPath p).data.dropWhile (fun c => c != '?')).drop 1).takeWhile
        (fun c => c != '?'))) := by
  by_cases h1 : (ctx.options.version == 1 || ctx.options.version == 2) = true
  · simp only [setPathM, h1, if_true]
    exact setPathRest_split ctx (normPath p) hq
  · rw [Bool.not_eq_true] at h1
    by_cases h2 : jsStartsWith (normPath p) "v1/" = true
    · simp only [setPathM, h1, Bool.false_eq_true, if_false, h2, if_true]
      exact setPathRest_split _ (normPath p) hq
    · rw [Bool.not_eq_true] at h2
      by_cases h3 : jsStartsWith (normPath p) "v2/" = true
      · simp only [setPathM, h1, h2, Bool.false_eq_true, if_false, h3, if_true]
        exact setPathRest_split _ (normPath p) hq
      · rw [Bool.not_eq_true] at h3
        simp only [setPathM, h1, h2, h3, Bool.false_eq_true, if_false] at hok
        cases hok

/-- C7 witness: the claim's own example — for `"v2/foo?limit=10"` the parsed
path is `"v2/foo"` and the query suffix is `"limit=10"`. -/
theorem claim7_witness :
    (setPathM freshCtx "v2/foo?limit=10").2 = none ∧
    jsIncludes (normPath "v2/foo?limit=10") '?' = true ∧
    ((setPathM freshCtx "v2/foo?limit=10").1.path =
        String.mk ((normPath "v2/foo?limit=10").data.takeWhile (fun c => c != '?')) ∧
      (setPathM freshCtx "v2/foo?limit=10").1.pathArgs =
        some (String.mk ((((normPath "v2/foo?limit=10").data.dropWhile
          (fun c => c != '?')).drop 1).takeWhile (fun c => c != '?')))) ∧
    (setPathM freshCtx "v2/foo?limit=10").1.path = "v2/foo" ∧
    (setPathM freshCtx "v2/foo?limit=10").1.pathArgs = some "limit=10" :=
  ⟨by decide, by decide,
   claim7_split_segments freshCtx "v2/foo?limit=10" (by decide) (by decide),
   by decide, by decide⟩

/-- Options configuring only a token, as the spec says suffices for a
WebSocket session. -/
def tokenOnlyOptions : Options :=
  { defaultOptions with token := some "auth-token-abc" }

/-- C5: `openSocket` on a fresh helper with a token configured but no
key/secret pair still rejects with the missing-credentials message — the
guard tests only `this.key`/`this.secret`, and `setCredentials` is invoked
there without the token argument, contradicting the claim (and the code's
own comment that the token "can be used instead of api key & secret"). -/
theorem claim5_token_only_rejected :
    optTruthy tokenOnlyOptions.token = true ∧
    (openSocketInit freshCtx tokenOnlyOptions none 0).2 = some missingCredentialsMsg := by
  decide

/-- The rate-limited authentication reply frame. -/
def rateLimitFrame : WsFrame :=
  { event := "auth", status := some "FAILED", msg := some "rate: limit" }

/-- C8: on the `{event:"auth", status:"FAILED", msg:"rate: limit"}` frame the
handler schedules a single 5000 ms timer, but the timer's callback invokes
the unbound identifiers `openSocket(callback, shouldDelayCallback)`
(src/ApiHelper.js:143) — a `ReferenceError` at fire time — rather than
re-invoking `openSocket` with the original arguments as the claim states. -/
theorem claim8_rate_limit_schedules_broken_retry :
    handleAuthFrame rateLimitFrame 0 =
      AuthAction.scheduleTimer 5000 RetryCallTarget.unboundIdentifiers := by
  decide

/-- Options forcing API version 1. -/
def forcedV1opts : Options := { defaultOptions with version := 1 }

/-- The context configured with a version-less path under forced version 1. -/
def ctx9 : Ctx := (setContext freshCtx "account/info" none forcedV1opts).1

/-- C9: with the `version` option set to 1, configuration accepts the
version-less path `"account/info"` (first half of the claim holds) — but
`this.version` is never assigned, so `sendRequest`'s dispatch
(`this.version === 1`) selects the v2 payload builder: the transmitted
payload is the v2 shape (structured JSON body, `json` flag, body left
unmutated), not the v1 shape the claim states (which would inject a
`request` field into the body and serialize it as text). -/
theorem claim9_forced_version_uses_v2_builder :
    (setContext freshCtx "account/info" none forcedV1opts).2 = none ∧
    ctx9.version = none ∧
    (sendRequestBuild hmacFix ctx9 false).2 = (getRequestPayloadV2 hmacFix ctx9 false).2 ∧
    (sendRequestBuild hmacFix ctx9 false).2.json = true ∧
    (sendRequestBuild hmacFix ctx9 false).1.body = [] ∧
    (getRequestPayloadV1 hmacFix ctx9 false).1.body =
      [("request", JsPrim.str "/account/info")] := by
  decide

/-- C1: for every configured context with version 2, no token, and a truthy
key/secret pair (and no extra optional headers configured), the headers of an
authenticated transmission are exactly `bfx-nonce` (the nonce), `bfx-apikey`
(the key) and `bfx-signature`, the hex HMAC-SHA384 — keyed by the secret —
of the string `"/api/" + path + nonce + JSON(body)`. -/
theorem claim1_v2_auth_headers (hmac : String → String → String) (ctx : Ctx) (k s : String)
    (hv : ctx.version = some 2) (ht : ctx.token = none)
    (hk : ctx.key = some k) (hk2 : k ≠ "") (hs : ctx.secret = some s) (hs2 : s ≠ "")
    (hoh : ctx.options.optionalHeaders = []) :
    (sendRequestBuild hmac ctx true).2.headers =
      [("bfx-nonce", ctx.nonce), ("bfx-apikey", k),
       ("bfx-signature", hmac ("/api/" ++ ctx.path ++ ctx.nonce ++ jsonStringify ctx.body) s)] := by
  simp [sendRequestBuild, getRequestPayloadV2, getHeaderV2, getSignatureV2,
        mergeOptionalHeaders, hdrMerge, hdrSet, optTruthy, hv, ht, hk, hs, hoh,
        bne_iff_ne, hk2, hs2]

/-- A concrete v2-configured context with credentials, for the C1 witness. -/
def ctxW2 : Ctx :=
  { freshCtx with
      version := some 2, path := "v2/auth/r/orders", key := some "api-key"
      secret := some "api-secret", nonce := "1700000000000000"
      body := [("limit", JsPrim.num 25)] }

theorem claim1_witness :
    ctxW2.version = some 2 ∧ ctxW2.token = none ∧ ctxW2.key = some "api-key" ∧
    "api-key" ≠ "" ∧ ctxW2.secret = some "api-secret" ∧ "api-secret" ≠ "" ∧
    ctxW2.options.optionalHeaders = [] ∧
    (sendRequestBuild hmacFix ctxW2 true).2.headers =
      [("bfx-nonce", ctxW2.nonce), ("bfx-apikey", "api-key"),
       ("bfx-signature",
        hmacFix ("/api/" ++ ctxW2.path ++ ctxW2.nonce ++ jsonStringify ctxW2.body)
          "api-secret")] :=
  ⟨by decide, by decide, by decide, by decide, by decide, by decide, by decide,
   claim1_v2_auth_headers hmacFix ctxW2 "api-key" "api-secret" (by decide) (by decide)
     (by decide) (by decide) (by decide) (by decide) (by decide)⟩

/-- C2: for every configured context with version 1, no token, a truthy
key/secret pair, no query suffix and no extra optional headers, an
authenticated transmission first injects the request path (`"/" + path`) and
then the nonce into the body, and its headers are exactly `X-BFX-APIKEY` (the
key), `X-BFX-PAYLOAD` (base64 of `JSON(body)` over the mutated body) and
`X-BFX-SIGNATURE` (the hex HMAC-SHA384 of that payload, keyed by the
secret). -/
theorem claim2_v1_auth_headers (hmac : String → String → String) (ctx : Ctx) (k s : String)
    (hv : ctx.version = some 1) (ht : ctx.token = none)
    (hk : ctx.key = some k) (hk2 : k ≠ "") (hs : ctx.secret = some s) (hs2 : s ≠ "")
    (hoh : ctx.options.optionalHeaders = []) (hpa : ctx.pathArgs = none)
    (hp : jsStartsWith ctx.path "/" = false) :
    (sendRequestBuild hmac ctx true).1.body =
      setField (setField ctx.body "request" (JsPrim.str ("/" ++ ctx.path)))
        "nonce" (JsPrim.str ctx.nonce) ∧
    (sendRequestBuild hmac ctx true).2.headers =
      [("X-BFX-APIKEY", k),
       ("X-BFX-PAYLOAD",
        base64Encode (utf8Bytes (jsonStringify
          (setField (setField ctx.body "request" (JsPrim.str ("/" ++ ctx.path)))
            "nonce" (JsPrim.str ctx.nonce))))),
       ("X-BFX-SIGNATURE",
        hmac (base64Encode (utf8Bytes (jsonStringify
          (setField (setField ctx.body "request" (JsPrim.str ("/" ++ ctx.path)))
            "nonce" (JsPrim.str ctx.nonce))))) s)] := by
  constructor
  · simp [sendRequestBuild, getRequestPayloadV1, getHeaderV1, getSignatureV1,
          mergeOptionalHeaders, hdrMerge, hdrSet, optTruthy, hv, ht, hk, hs, hoh, hpa, hp,
          bne_iff_ne, hk2, hs2]
  · simp [sendRequestBuild, getRequestPayloadV1, getHeaderV1, getSignatureV1,
          mergeOptionalHeaders, hdrMerge, hdrSet, optTruthy, hv, ht, hk, hs, hoh, hpa, hp,
          bne_iff_ne, hk2, hs2]

/-- A concrete v1-configured context with credentials, for the C2 witness. -/
def ctxW1 : Ctx :=
  { freshCtx with
      version := some 1, path := "v1/order/status", key := some "api-key"
      secret := some "api-secret", nonce := "1700000000000000"
      body := [("order_id", JsPrim.num 48513532021)] }

theorem claim2_witness :
    ctxW1.version = some 1 ∧ ctxW1.token = none ∧ ctxW1.key = some "api-key" ∧
    "api-key" ≠ "" ∧ ctxW1.secret = some "api-secret" ∧ "api-secret" ≠ "" ∧
    ctxW1.options.optionalHeaders = [] ∧ ctxW1.pathArgs = none ∧
    jsStartsWith ctxW1.path "/" = false ∧
    ((sendRequestBuild hmacFix ctxW1 true).1.body =
        setField (setField ctxW1.body "request" (JsPrim.str ("/" ++ ctxW1.path)))
          "nonce" (JsPrim.str ctxW1.nonce) ∧
      (sendRequestBuild hmacFix ctxW1 true).2.headers =
        [("X-BFX-APIKEY", "api-key"),
         ("X-BFX-PAYLOAD",
          base64Encode (utf8Bytes (jsonStringify
            (setField (setField ctxW1.body "request" (JsPrim.str ("/" ++ ctxW1.path)))
              "nonce" (JsPrim.str ctxW1.nonce))))),
         ("X-BFX-SIGNATURE",
          hmacFix (base64Encode (utf8Bytes (jsonStringify
            (setField (setField ctxW1.body "request" (JsPrim.str ("/" ++ ctxW1.path)))
              "nonce" (JsPrim.str ctxW1.nonce))))) "api-secret")]) :=
  ⟨by decide, by decide, by decide, by decide, by decide, by decide, by decide, by decide,
   by decide,
   claim2_v1_auth_headers hmacFix ctxW1 "api-key" "api-secret" (by decide) (by decide)
     (by decide) (by decide) (by decide) (by decide) (by decide) (by decide) (by decide)⟩

/-- C3: the WebSocket authentication frame is `{event:"auth", token}` when a
token is configured in the options, and otherwise `{event:"auth", apiKey,
authSig, authNonce, authPayload}` with `authPayload = "AUTH" + nonce` and
`authSig` the hex HMAC-SHA384 of `"AUTH" + nonce` keyed by the secret; a
`dms: 4` field is appended exactly when the `dms` option is set and a
`filter` field exactly when the `filter` option is an array. -/
theorem claim3_ws_auth_frame (hmac : String → String → String) (ctx : Ctx) (k s : String)
    (hk : ctx.key = some k) (hs : ctx.secret = some s) :
    getWebSocketSignature hmac ctx =
      (if optTruthy ctx.options.token then
         [("event", JsPrim.str "auth"), ("token", JsPrim.str (ctx.options.token.getD ""))]
       else
         [("event", JsPrim.str "auth"), ("apiKey", JsPrim.str k),
          ("authSig", JsPrim.str (hmac ("AUTH" ++ ctx.nonce) s)),
          ("authNonce", JsPrim.str ctx.nonce),
          ("authPayload", JsPrim.str ("AUTH" ++ ctx.nonce))])
      ++ (if ctx.options.dms then [("dms", JsPrim.num 4)] else [])
      ++ (match ctx.options.filter with
          | some fs => [("filter", JsPrim.strArr fs)]
          | none => []) := by
  by_cases htok : optTruthy ctx.options.token = true
  all_goals by_cases hdms : ctx.options.dms = true
  all_goals cases hfil : ctx.options.filter
  all_goals simp [getWebSocketSignature, setField, htok, hdms, hfil, hk, hs]

/-- A concrete context with credentials, dms set and a filter array, for the
C3 witness. -/
def ctxW3 : Ctx :=
  { freshCtx with
      key := some "api-key", secret := some "api-secret", nonce := "1700000000000000"
      options := { defaultOptions with dms := true, filter := some ["trading", "wallet"] } }

theorem claim3_witness :
    ctxW3.key = some "api-key" ∧ ctxW3.secret = some "api-secret" ∧
    getWebSocketSignature hmacFix ctxW3 =
      (if optTruthy ctxW3.options.token then
         [("event", JsPrim.str "auth"),
          ("token", JsPrim.str (ctxW3.options.token.getD ""))]
       else
         [("event", JsPrim.str "auth"), ("apiKey", JsPrim.str "api-key"),
          ("authSig", JsPrim.str (hmacFix ("AUTH" ++ ctxW3.nonce) "api-secret")),
          ("authNonce", JsPrim.str ctxW3.nonce),
          ("authPayload", JsPrim.str ("AUTH" ++ ctxW3.nonce))])
      ++ (if ctxW3.options.dms then [("dms", JsPrim.num 4)] else [])
      ++ (match ctxW3.options.filter with
          | some fs => [("filter", JsPrim.strArr fs)]
          | none => []) :=
  ⟨by decide, by decide,
   claim3_ws_auth_frame hmacFix ctxW3 "api-key" "api-secret" (by decide) (by decide)⟩

/-- A context configured for a v2 path with the default options, used by the
C4 counterexample. -/
def ctxV2cfg : Ctx := (setContext freshCtx "v2/auth/r/wallets" none defaultOptions).1

/-- C4 counterexample: two transmissions executed in sequence on the same
context with no nonce override, where `Date.now()` reads the same millisecond
value both times (possible for two calls within one millisecond): both
transmissions use the same nonce value, refuting the claim that the nonces
always differ. -/
theorem claim4_cex_same_clock :
    (transmitBuild hmacFix ctxV2cfg true none 1700000000000).1.nonce =
      (transmitBuild hmacFix
        (transmitBuild hmacFix ctxV2cfg true none 1700000000000).1
        true none 1700000000000).1.nonce := by
  decide

/-- C4 (amended): the nonce of a transmission with no override is determined
solely by the clock reading (`(Date.now() * 1000).toString()`), so two
transmissions in sequence on a context use distinct nonces exactly when their
`Date.now()` readings differ; for equal readings (two calls within the same
millisecond) the nonce repeats. -/
theorem claim4_distinct_clock_nonces (hmac : String → String → String)
    (ctx1 ctx2 : Ctx) (auth1 auth2 : Bool) (t1 t2 : Nat) (h : t1 ≠ t2) :
    (transmitBuild hmac ctx1 auth1 none t1).1.nonce ≠
      (transmitBuild hmac ctx2 auth2 none t2).1.nonce := by
  rw [transmitBuild_nonce, transmitBuild_nonce]
  intro he
  have := decRepr_injective he
  omega

theorem claim4_witness :
    (1 : Nat) ≠ 2 ∧
    (transmitBuild hmacFix freshCtx false none 1).1.nonce ≠
      (transmitBuild hmacFix freshCtx false none 2).1.nonce :=
  ⟨by decide,
   claim4_distinct_clock_nonces hmacFix freshCtx freshCtx false false 1 2 (by decide)⟩

/-- C6: for every non-empty path whose normalized form starts with neither
`"v1/"` nor `"v2/"`, configuration under options that do not force a version
fails with the unresolved-version error and leaves `this.version`
unassigned. -/
theorem claim6_unresolved_version (ctx : Ctx) (p : String) (b : Option JsObj)
    (opts : Options) (hp : p ≠ "")
    (hv1 : opts.version ≠ 1) (hv2 : opts.version ≠ 2)
    (h1 : jsStartsWith (normPath p) "v1/" = false)
    (h2 : jsStartsWith (normPath p) "v2/" = false) :
    (setContext ctx p b opts).2 = some unresolvedVersionMsg ∧
    (setContext ctx p b opts).1.version = ctx.version := by
  simp [setContext, setPathM, hp, hv1, hv2, h1, h2]

theorem claim6_witness :
    "v3/candles" ≠ "" ∧ defaultOptions.version ≠ 1 ∧ defaultOptions.version ≠ 2 ∧
    jsStartsWith (normPath "v3/candles") "v1/" = false ∧
    jsStartsWith (normPath "v3/candles") "v2/" = false ∧
    ((setContext freshCtx "v3/candles" none defaultOptions).2 =
        some unresolvedVersionMsg ∧
      (setContext freshCtx "v3/candles" none defaultOptions).1.version =
        freshCtx.version) :=
  ⟨by decide, by decide, by decide, by decide, by decide,
   claim6_unresolved_version freshCtx "v3/candles" none defaultOptions (by decide)
     (by decide) (by decide) (by decide) (by decide)⟩
